import Mathlib

/-!
Verification of `storj` (pkg/miniogw/config.go and pkg/overlay/config.go)
against its natural-language specification.

The Go code is shallowly embedded: Go `int` arithmetic is modelled on `Int`
with explicit 64-bit two's-complement wrapping where the source multiplies,
and the lossy `int16(...)` / `int32(...)` conversions of the source are
modelled explicitly.  Functions of this repository that are referenced by
the two source files but are not part of the given sources (eestream's
scheme constructors, `utils.SplitDBURL`, `utils.CombineErrors`,
`storj.NodeIDFromString`, `kademlia.LoadFromContext`) are modelled from the
specification and marked as such in their doc comments.
-/

set_option linter.unusedVariables false

namespace Storj

/-- Two's-complement wrap of an integer to a signed width of `w` bits,
the semantics of Go's lossy integer conversions. -/
def wrapSigned (w : Nat) (x : Int) : Int :=
  (x + 2 ^ (w - 1)) % 2 ^ w - 2 ^ (w - 1)

/-- Go's `int16(x)` conversion (Go spec: the value is truncated to 16 bits). -/
def goInt16 (x : Int) : Int := wrapSigned 16 x

/-- Go's `int32(x)` conversion. -/
def goInt32 (x : Int) : Int := wrapSigned 32 x

/-- Go multiplication of two `int` (64-bit) values: wraps on overflow. -/
def goMul64 (a b : Int) : Int := wrapSigned 64 (a * b)

/-- Go's `%` on integers: truncated modulus, the sign follows the dividend
(`Int.tmod`).  Go panics when the divisor is zero; callers of `goMod` in
this development test the divisor for zero first. -/
def goMod (a b : Int) : Int := Int.tmod a b

/-- `Except` success test (the Go pattern `err == nil`). -/
def exceptIsOk : Except ε α → Bool
  | .ok _ => true
  | .error _ => false

/-- The value of a successful `Except`, if any. -/
def exceptOk : Except ε α → Option α
  | .ok a => some a
  | .error _ => none

/-- The error of a failed `Except`, if any. -/
def exceptError : Except ε α → Option ε
  | .ok _ => none
  | .error e => some e

namespace miniogw

/-- `RSConfig` from pkg/miniogw/config.go: redundancy-strategy configuration. -/
structure RSConfig where
  MaxBufferMem : Int
  ErasureShareSize : Int
  MinThreshold : Int
  RepairThreshold : Int
  SuccessThreshold : Int
  MaxThreshold : Int
deriving DecidableEq

/-- `EncryptionConfig` from pkg/miniogw/config.go. -/
structure EncryptionConfig where
  Key : String
  BlockSize : Int
  DataType : Int
  PathType : Int
deriving DecidableEq

/-- `ClientConfig` from pkg/miniogw/config.go (the address/API-key fields are
opaque strings used only to dial network clients; the two numeric fields
feed the pipeline construction). -/
structure ClientConfig where
  OverlayAddr : String
  PointerDBAddr : String
  APIKey : String
  MaxInlineSize : Int
  SegmentSize : Int
deriving DecidableEq

/-- `Config` from pkg/miniogw/config.go, restricted to the sub-configurations
that determine `GetMetainfo` / `GetRedundancyScheme` / `GetEncryptionScheme`.
(`Identity` and `Minio` only affect process startup; `Node` holds float64
reputation thresholds that are passed through untouched to the segment
store and play no role in the claims.) -/
structure Config where
  Client : ClientConfig
  RS : RSConfig
  Enc : EncryptionConfig
deriving DecidableEq

/-- The `default:` struct-tag values of `RSConfig`. -/
def defaultRSConfig : RSConfig :=
  { MaxBufferMem := 0x400000
  , ErasureShareSize := 1024
  , MinThreshold := 29
  , RepairThreshold := 35
  , SuccessThreshold := 80
  , MaxThreshold := 95 }

/-- The `default:` struct-tag values of `EncryptionConfig` (`Key` has no
default and is the empty string). -/
def defaultEncryptionConfig : EncryptionConfig :=
  { Key := ""
  , BlockSize := 1024
  , DataType := 1
  , PathType := 1 }

/-- The `default:` struct-tag values of `ClientConfig` (the addresses and
API key have no defaults). -/
def defaultClientConfig : ClientConfig :=
  { OverlayAddr := ""
  , PointerDBAddr := ""
  , APIKey := ""
  , MaxInlineSize := 4096
  , SegmentSize := 64000000 }

/-- The default `Config`. -/
def defaultConfig : Config :=
  { Client := defaultClientConfig
  , RS := defaultRSConfig
  , Enc := defaultEncryptionConfig }

/-- Errors `GetMetainfo` can produce from its configuration.  Per the spec
(§7) the configuration-error taxonomy covers invalid scheme parameters and
the block/share-size mismatch.  `modByZeroPanic` models the Go run-time
panic of `x % 0` when `Enc.BlockSize = 0`; a panic is not an error return. -/
inductive GWError where
  | invalidScheme
  | blockSizeMismatch
  | modByZeroPanic
deriving DecidableEq

/-- A forward-error-correction instance, `infectious.NewFEC`'s result:
carries the required- and total-share counts. -/
structure FEC where
  k : Int
  n : Int
deriving DecidableEq

/-- Modelled from the spec: `infectious.NewFEC` (third-party) together with
§4.3's construction rule "Constructed from (k, n, ErasureShareSize) with
validation `0 < k ≤ n`"; construction fails with InvalidScheme on
violation. -/
def NewFEC (k n : Int) : Except GWError FEC :=
  if 0 < k ∧ k ≤ n then .ok { k := k, n := n } else .error .invalidScheme

/-- `eestream.NewRSScheme`'s result: an erasure scheme with a fixed share
size.  The call site in GetMetainfo shows `NewRSScheme` returns a bare
value (no error). -/
structure RSScheme where
  fc : FEC
  ErasureShareSize : Int
deriving DecidableEq

/-- Modelled from the spec: `eestream.NewRSScheme` is not under the given
sources; its call site returns no error, so it is a plain constructor. -/
def NewRSScheme (fc : FEC) (ErasureShareSize : Int) : RSScheme :=
  { fc := fc, ErasureShareSize := ErasureShareSize }

/-- A redundancy strategy: an erasure scheme plus repair and optimal
thresholds. -/
structure RedundancyStrategy where
  es : RSScheme
  repairThreshold : Int
  optimalThreshold : Int
deriving DecidableEq

/-- Modelled from the spec: `eestream.NewRedundancyStrategy` is not under
the given sources; §4.3 validates "`(m, o)` validated against
`k ≤ m ≤ o ≤ n`" and "`ErasureShareSize > 0`", failing with InvalidScheme
on violation.  (The share-size check lives here because the `NewRSScheme`
call site admits no error return.) -/
def NewRedundancyStrategy (es : RSScheme) (m o : Int) : Except GWError RedundancyStrategy :=
  if es.fc.k ≤ m ∧ m ≤ o ∧ o ≤ es.fc.n ∧ 0 < es.ErasureShareSize then
    .ok { es := es, repairThreshold := m, optimalThreshold := o }
  else .error .invalidScheme

/-- The segment store assembled by `GetMetainfo` (line 167): the parts of
`segments.NewSegmentStore`'s input that the configuration determines. -/
structure SegmentStore where
  rs : RedundancyStrategy
  maxInlineSize : Int
deriving DecidableEq

/-- The stream store assembled by `GetMetainfo` (line 177).  Modelled from
the spec: `streams.NewStreamStore` is not under the given sources and §4.6
imposes no construction-time validation, so construction succeeds. -/
structure StreamStore where
  segments : SegmentStore
  segmentSize : Int
  blockSize : Int
  cipher : Int
deriving DecidableEq

/-- What `GetMetainfo` hands back on success: the metainfo wraps the stream
store, which wraps the segment store. -/
structure MetainfoResult where
  streams : StreamStore
deriving DecidableEq

/-- `Config.GetMetainfo` from pkg/miniogw/config.go (lines 137-185), the
configuration-determined part.  The two network-client constructions
(`overlay.NewOverlayClient`, `pdbclient.NewClient`) perform I/O whose
outcome does not depend on the configuration values below and are modelled
as succeeding.  The order of the steps is the source's: FEC, redundancy
strategy, segment store, the block-size divisibility check (lines 169-172),
then the stream store. -/
def Config.GetMetainfo (c : Config) : Except GWError MetainfoResult :=
  match NewFEC c.RS.MinThreshold c.RS.MaxThreshold with
  | .error e => .error e
  | .ok fc =>
    match NewRedundancyStrategy (NewRSScheme fc c.RS.ErasureShareSize)
        c.RS.RepairThreshold c.RS.SuccessThreshold with
    | .error e => .error e
    | .ok rs =>
      let segments : SegmentStore := { rs := rs, maxInlineSize := c.Client.MaxInlineSize }
      if c.Enc.BlockSize = 0 then .error .modByZeroPanic
      else if goMod (goMul64 c.RS.ErasureShareSize c.RS.MinThreshold) c.Enc.BlockSize ≠ 0 then
        .error .blockSizeMismatch
      else
        .ok { streams :=
              { segments := segments
              , segmentSize := c.Client.SegmentSize
              , blockSize := c.Enc.BlockSize
              , cipher := c.Enc.DataType } }

/-- The redundancy-strategy construction inside `GetMetainfo`
(lines 151-158): `NewFEC` followed by `NewRedundancyStrategy` over
`NewRSScheme`. -/
def Config.redundancyConstruction (c : Config) : Except GWError RedundancyStrategy :=
  match NewFEC c.RS.MinThreshold c.RS.MaxThreshold with
  | .error e => .error e
  | .ok fc =>
    NewRedundancyStrategy (NewRSScheme fc c.RS.ErasureShareSize)
      c.RS.RepairThreshold c.RS.SuccessThreshold

/-- Which `GWError`s the spec's §7 taxonomy classifies as configuration
errors: invalid scheme parameters and the block/share-size mismatch.  A Go
panic is not an error return at all. -/
def isConfigurationError : GWError → Bool
  | .invalidScheme => true
  | .blockSizeMismatch => true
  | .modByZeroPanic => false

/-- `GetMetainfo` failed with a configuration error (returning no metainfo
and no stream store). -/
def Config.failsWithConfigError (c : Config) : Bool :=
  match c.GetMetainfo with
  | .error e => isConfigurationError e
  | .ok _ => false

/-- `storj.RedundancyScheme.Algorithm` values; the spec fixes
Algorithm=ReedSolomon for schemes built here. -/
inductive RedundancyAlgorithm where
  | invalidRedundancyAlgorithm
  | reedSolomon
deriving DecidableEq

/-- `storj.RedundancyScheme`: the metadata record returned by
`GetRedundancyScheme`.  Its share-count fields are `int16` in Go; they are
modelled as integers produced by the explicit `goInt16` conversions at the
construction site. -/
structure RedundancyScheme where
  Algorithm : RedundancyAlgorithm
  RequiredShares : Int
  RepairShares : Int
  OptimalShares : Int
  TotalShares : Int
deriving DecidableEq

/-- `storj.EncryptionScheme`: cipher selector plus block size (an `int32`
in Go).  Modelled from the spec: `storj.Cipher` is an enum selected by the
integer `DataType`. -/
structure EncryptionScheme where
  Cipher : Int
  BlockSize : Int
deriving DecidableEq

/-- `Config.GetRedundancyScheme` from pkg/miniogw/config.go
(lines 188-196): builds the scheme record from the configured thresholds
through Go's lossy `int16(...)` conversions, with no validation. -/
def Config.GetRedundancyScheme (c : Config) : RedundancyScheme :=
  { Algorithm := .reedSolomon
  , RequiredShares := goInt16 c.RS.MinThreshold
  , RepairShares := goInt16 c.RS.RepairThreshold
  , OptimalShares := goInt16 c.RS.SuccessThreshold
  , TotalShares := goInt16 c.RS.MaxThreshold }

/-- `Config.GetEncryptionScheme` from pkg/miniogw/config.go
(lines 199-204). -/
def Config.GetEncryptionScheme (c : Config) : EncryptionScheme :=
  { Cipher := c.Enc.DataType
  , BlockSize := goInt32 c.Enc.BlockSize }

/-- The spec's §3 invariant on a produced redundancy scheme:
`0 < k ≤ m ≤ o ≤ n`. -/
def schemeBoundsOK (s : RedundancyScheme) : Bool :=
  decide (0 < s.RequiredShares ∧ s.RequiredShares ≤ s.RepairShares ∧
    s.RepairShares ≤ s.OptimalShares ∧ s.OptimalShares ≤ s.TotalShares)

end miniogw

/-! ### Context model shared by the overlay and kademlia packages

Go's `context.Context` is a key-to-value chain; `WithValue` prepends and
`Value` returns the most recently added entry for a key.  Values are
dynamically typed; the source's type assertions are modelled by matching
on the `CtxVal` constructor. -/

/-- A key-value store handle, the result of `boltdb.New` or
`redis.NewClientFrom`; the constructor records which engine backs it and
what it was opened with. -/
inductive KeyValueStore where
  | bolt (source : String) (bucket : String)
  | redis (url : String)
deriving DecidableEq

/-- A started Kademlia responsibility (opaque to the overlay package). -/
structure Kademlia where
  id : Nat
deriving DecidableEq

/-- The master database value stored in the context under the key
"masterdb"; the overlay only needs its `StatDB`. -/
structure MasterDB where
  statDB : Nat
deriving DecidableEq

/-- `StatDB()` accessor of the master database. -/
def MasterDB.StatDB (m : MasterDB) : Nat := m.statDB

namespace overlay

/-- The overlay cache built by `NewOverlayCache(db, kad, sdb.StatDB())`. -/
structure Cache where
  db : KeyValueStore
  kad : Kademlia
  sdb : Nat
deriving DecidableEq

/-- The overlay server built by `NewServer(log, cache, kad)`. -/
structure Server where
  cache : Cache
  kad : Kademlia
deriving DecidableEq

end overlay

/-- The distinct context keys the two source files use: the overlay
package's private `CtxKey` constants, kademlia's own key, and the string
key "masterdb"; `other` covers every unrelated key. -/
inductive CtxKey where
  | ctxKeyOverlay
  | ctxKeyOverlayServer
  | kademliaKey
  | masterdbKey
  | other (n : Nat)
deriving DecidableEq

/-- A dynamically-typed context value. -/
inductive CtxVal where
  | overlayCache (c : overlay.Cache)
  | overlayServer (s : overlay.Server)
  | kademlia (k : Kademlia)
  | masterdb (m : MasterDB)
  | otherVal (n : Nat)
deriving DecidableEq

/-- A context: a chain of key-value entries, most recent first. -/
def Context := List (CtxKey × CtxVal)

instance : DecidableEq Context := by
  unfold Context
  infer_instance

/-- `context.WithValue`: prepend an entry. -/
def withValue (ctx : Context) (k : CtxKey) (v : CtxVal) : Context :=
  (k, v) :: ctx

/-- `ctx.Value(k)`: the most recently stored value under `k`, if any. -/
def ctxValue (ctx : Context) (k : CtxKey) : Option CtxVal :=
  match ctx with
  | [] => none
  | (k2, v) :: rest => if k2 = k then some v else ctxValue rest k

namespace kademlia

/-- Modelled from the spec: `kademlia.LoadFromContext` is not under the
given sources; per the source comment on `overlay.Config.Run` ("Run assumes
a Kademlia responsibility has been started before this one") it returns the
started Kademlia stored in the context, or nil when the responsibility is
unstarted or the stored value is not a Kademlia. -/
def LoadFromContext (ctx : Context) : Option Kademlia :=
  match ctxValue ctx .kademliaKey with
  | some (.kademlia k) => some k
  | _ => none

end kademlia

namespace overlay

/-- `Config` from pkg/overlay/config.go.  `RefreshInterval` is a Go
`time.Duration`, a count of nanoseconds. -/
structure Config where
  DatabaseURL : String
  RefreshInterval : Int
deriving DecidableEq

/-- Go's `time.Second`: one second as a `time.Duration` (nanoseconds). -/
def timeSecond : Int := 1000000000

/-- The `default:` struct-tag values of the overlay `Config`:
`bolt://$CONFDIR/overlay.db` and `1s`. -/
def defaultConfig : Config :=
  { DatabaseURL := "bolt://$CONFDIR/overlay.db"
  , RefreshInterval := timeSecond }

/-- `LookupConfig` from pkg/overlay/config.go. -/
structure LookupConfig where
  NodeIDsString : String
  Delimiter : String
deriving DecidableEq

/-- The bucket name constant `OverlayBucket` (declared elsewhere in the
overlay package). -/
def OverlayBucket : String := "overlay"

/-- Errors `Config.Run` can return, one per `return` site. -/
inductive OverlayError where
  | programmerErrorKademliaUnstarted
  | unableToGetMasterDB
  | splitDBURLError
  | backendOpenError (msg : String)
  | schemeNotSupported (driver : String)
deriving DecidableEq

/-- Split a character list at the first occurrence of the separator:
`some (before, after)`, or `none` when the separator does not occur. -/
def breakOnSep (sep : List Char) : List Char → Option (List Char × List Char)
  | [] => none
  | c :: rest =>
    if sep.isPrefixOf (c :: rest) then some ([], (c :: rest).drop sep.length)
    else
      match breakOnSep sep rest with
      | none => none
      | some (a, b) => some (c :: a, b)

/-- Modelled from the spec: `utils.SplitDBURL` is not under the given
sources; per §4.1/§6 a backend is "selected by a connection-string scheme
(`scheme://location`)", so the URL splits at the first `://` into the
scheme (driver) and the location, and a string with no `://` fails to
parse. -/
def SplitDBURL (s : String) : Option (String × String) :=
  match breakOnSep [':', '/', '/'] s.toList with
  | none => none
  | some (a, b) => some (String.mk a, String.mk b)

/-- The observable startup actions of `Config.Run`, in order: opening a
persistent backend, constructing the overlay cache, registering the gRPC
server. -/
inductive Action where
  | openBolt (source : String) (bucket : String)
  | openRedis (url : String)
  | newCache
  | registerServer
deriving DecidableEq

/-- The collaborators `Config.Run` calls to open a backend; their success
or failure is environmental (filesystem / network), so they are parameters
of the embedding. -/
structure RunEnv where
  boltNew : String → String → Except String KeyValueStore
  redisNewClientFrom : String → Except String KeyValueStore

/-- What a successful `Config.Run` has built when it delegates to
`server.Run(ctx2)`: the cache, the server, and the context carrying both. -/
structure RunOk where
  cache : Cache
  srv : Server
  ctx2 : Context
deriving DecidableEq

/-- `Config.Run` from pkg/overlay/config.go (lines 55-102), stepwise as in
the source: load Kademlia from the context (error if unstarted), assert the
"masterdb" context value provides a `StatDB` (error otherwise), split the
database URL, switch on the driver ("bolt" / "redis" / unsupported), then
build the cache, register the server and store both in the context handed
to `server.Run`.  The returned action list records which startup effects
occurred, in order; failure paths return the actions performed before the
failure. -/
def Config.Run (env : RunEnv) (ctx : Context) (c : Config) :
    List Action × Except OverlayError RunOk :=
  match kademlia.LoadFromContext ctx with
  | none => ([], .error .programmerErrorKademliaUnstarted)
  | some kad =>
    match ctxValue ctx .masterdbKey with
    | some (.masterdb sdb) =>
      match SplitDBURL c.DatabaseURL with
      | none => ([], .error .splitDBURLError)
      | some (driver, source) =>
        if driver = "bolt" then
          match env.boltNew source OverlayBucket with
          | .error e => ([.openBolt source OverlayBucket], .error (.backendOpenError e))
          | .ok db =>
            let cache : Cache := { db := db, kad := kad, sdb := sdb.StatDB }
            let srv : Server := { cache := cache, kad := kad }
            let ctx2 := withValue (withValue ctx .ctxKeyOverlay (.overlayCache cache))
              .ctxKeyOverlayServer (.overlayServer srv)
            ([.openBolt source OverlayBucket, .newCache, .registerServer],
              .ok { cache := cache, srv := srv, ctx2 := ctx2 })
        else if driver = "redis" then
          match env.redisNewClientFrom c.DatabaseURL with
          | .error e => ([.openRedis c.DatabaseURL], .error (.backendOpenError e))
          | .ok db =>
            let cache : Cache := { db := db, kad := kad, sdb := sdb.StatDB }
            let srv : Server := { cache := cache, kad := kad }
            let ctx2 := withValue (withValue ctx .ctxKeyOverlay (.overlayCache cache))
              .ctxKeyOverlayServer (.overlayServer srv)
            ([.openRedis c.DatabaseURL, .newCache, .registerServer],
              .ok { cache := cache, srv := srv, ctx2 := ctx2 })
        else ([], .error (.schemeNotSupported driver))
    | _ => ([], .error .unableToGetMasterDB)

/-- `LoadFromContext` from pkg/overlay/config.go (lines 105-110): the cache
from the context, or nil (`none`). -/
def LoadFromContext (ctx : Context) : Option Cache :=
  match ctxValue ctx .ctxKeyOverlay with
  | some (.overlayCache c) => some c
  | _ => none

/-- `LoadServerFromContext` from pkg/overlay/config.go (lines 113-118). -/
def LoadServerFromContext (ctx : Context) : Option Server :=
  match ctxValue ctx .ctxKeyOverlayServer with
  | some (.overlayServer s) => some s
  | _ => none

/-- One left-to-right pass of Go's `strings.Split` over a character list:
`acc` holds the reversed characters of the current field; each step either
consumes a separator occurrence (closing the field) or one character.  The
fuel argument only bounds the recursion; `fuel = length + 1` is always
enough because every step consumes at least one character. -/
def splitCharsFuel (sep : List Char) : Nat → List Char → List Char → List (List Char)
  | 0, l, acc => [acc.reverse ++ l]
  | _ + 1, [], acc => [acc.reverse]
  | fuel + 1, c :: rest, acc =>
    if sep.isPrefixOf (c :: rest) then
      acc.reverse :: splitCharsFuel sep fuel ((c :: rest).drop sep.length) []
    else splitCharsFuel sep fuel rest (c :: acc)

/-- Split a character list around every non-overlapping occurrence of the
non-empty separator, scanning left to right. -/
def splitChars (sep l : List Char) : List (List Char) :=
  splitCharsFuel sep (l.length + 1) l []

/-- Go's `strings.Split(s, sep)`: for a non-empty separator, split around
every non-overlapping instance; for the empty separator, split after each
UTF-8 rune (and the empty string yields an empty slice). -/
def goSplit (s sep : String) : List String :=
  if sep = "" then s.toList.map (fun c => String.singleton c)
  else (splitChars sep.toList s.toList).map String.mk

/-- Modelled from the spec: `utils.CombineErrors` is not under the given
sources; its call site shows it combines a slice of errors into one error
that is nil exactly when the slice is empty.  The combined error is
modelled as the list itself. -/
def CombineErrors (es : List ε) : Option (List ε) :=
  if es.isEmpty then none else some es

/-- The accumulation loop of `ParseIDs` (lines 124-131): walk the
substrings in order, collecting parse errors and parsed IDs. -/
def collectIDs (parse : String → Except ε σ) : List String → List ε × List σ
  | [] => ([], [])
  | s :: rest =>
    let acc := collectIDs parse rest
    match parse s with
    | .error e => (e :: acc.1, acc.2)
    | .ok a => (acc.1, a :: acc.2)

/-- `LookupConfig.ParseIDs` from pkg/overlay/config.go (lines 121-136),
parameterised over the node-ID parser: `storj.NodeIDFromString` is not
under the given sources (modelled from the spec: it decodes a
base58check-encoded node ID string, failing on malformed input), so the
theorems below hold for every parser.  A combined non-nil error (with the
nil ID list) is the `.error` case; the parsed IDs with a nil error are the
`.ok` case. -/
def LookupConfig.ParseIDs (parse : String → Except ε σ) (c : LookupConfig) :
    Except (List ε) (List σ) :=
  match CombineErrors (collectIDs parse (goSplit c.NodeIDsString c.Delimiter)).1 with
  | some e => .error e
  | none => .ok (collectIDs parse (goSplit c.NodeIDsString c.Delimiter)).2

end overlay

/-! ### Concrete configurations and environments used to instantiate the
theorems below. -/

namespace miniogw

/-- A configuration with an invalid redundancy scheme (`MaxThreshold` 10 is
below `MinThreshold` 29) whose block-size divisibility nevertheless holds
(`1024 * 29 mod 1024 = 0`). -/
def cfgInvalidRS : Config :=
  { Client := defaultClientConfig
  , RS := { defaultRSConfig with MaxThreshold := 10 }
  , Enc := defaultEncryptionConfig }

/-- A configuration with a valid redundancy scheme whose block size 1000
does not divide `1024 * 29 = 29696`. -/
def cfgBlockMismatch : Config :=
  { Client := defaultClientConfig
  , RS := defaultRSConfig
  , Enc := { defaultEncryptionConfig with BlockSize := 1000 } }

/-- A configuration with `MinThreshold = 0`, violating `0 < k`. -/
def cfgZeroMin : Config :=
  { Client := defaultClientConfig
  , RS := { defaultRSConfig with MinThreshold := 0 }
  , Enc := defaultEncryptionConfig }

/-- A configuration with `MinThreshold = 32768`, one past the largest
`int16` value. -/
def cfgBigMin : Config :=
  { Client := defaultClientConfig
  , RS := { defaultRSConfig with MinThreshold := 32768 }
  , Enc := defaultEncryptionConfig }

end miniogw

namespace overlay

/-- A started Kademlia instance. -/
def kad0 : Kademlia := { id := 3 }

/-- A master database value. -/
def mdb0 : MasterDB := { statDB := 7 }

/-- A context carrying a started Kademlia and a masterdb value: the state
`Config.Run` expects. -/
def ctxReady : Context :=
  [(CtxKey.kademliaKey, CtxVal.kademlia kad0), (CtxKey.masterdbKey, CtxVal.masterdb mdb0)]

/-- A context carrying only a started Kademlia (no masterdb value). -/
def ctxKadOnly : Context :=
  [(CtxKey.kademliaKey, CtxVal.kademlia kad0)]

/-- Backend constructors that always succeed, returning handles that record
what they were opened with. -/
def env0 : RunEnv :=
  { boltNew := fun source bucket => .ok (.bolt source bucket)
  , redisNewClientFrom := fun url => .ok (.redis url) }

/-- A bolt-scheme configuration. -/
def cfgBoltURL : Config := { DatabaseURL := "bolt://path", RefreshInterval := timeSecond }

/-- A redis-scheme configuration. -/
def cfgRedisURL : Config := { DatabaseURL := "redis://127.0.0.1:6379", RefreshInterval := timeSecond }

/-- A configuration with an unsupported scheme. -/
def cfgSqliteURL : Config := { DatabaseURL := "sqlite://path", RefreshInterval := timeSecond }

/-- The cache `Config.Run env0 ctxReady cfgBoltURL` builds. -/
def cacheBolt : Cache := { db := .bolt "path" OverlayBucket, kad := kad0, sdb := mdb0.StatDB }

/-- The server `Config.Run env0 ctxReady cfgBoltURL` builds. -/
def srvBolt : Server := { cache := cacheBolt, kad := kad0 }

/-- The successful result of `Config.Run env0 ctxReady cfgBoltURL`. -/
def runBoltOk : RunOk :=
  { cache := cacheBolt
  , srv := srvBolt
  , ctx2 := (CtxKey.ctxKeyOverlayServer, CtxVal.overlayServer srvBolt) ::
      (CtxKey.ctxKeyOverlay, CtxVal.overlayCache cacheBolt) :: ctxReady }

/-- A parser for the `ParseIDs` theorems: accepts only the string "a". -/
def parse0 (s : String) : Except Unit Nat :=
  if s = "a" then .ok 1 else .error ()

/-- A lookup configuration whose substrings all parse under `parse0`. -/
def cfgIDsOk : LookupConfig := { NodeIDsString := "a,a", Delimiter := "," }

/-- A lookup configuration with one parsing and one failing substring. -/
def cfgIDsBad : LookupConfig := { NodeIDsString := "a,b", Delimiter := "," }

end overlay

/-! ## Helper lemmas -/

theorem wrapSigned16_fix (x : Int) (h1 : -32768 ≤ x) (h2 : x < 32768) :
    goInt16 x = x := by
  unfold goInt16 wrapSigned
  norm_num
  omega

theorem wrapSigned32_fix (x : Int) (h1 : -2147483648 ≤ x) (h2 : x < 2147483648) :
    goInt32 x = x := by
  unfold goInt32 wrapSigned
  norm_num
  omega

/-! ## Claims about the miniogw configuration -/

namespace miniogw

/-- C1 counterexample: at `cfgInvalidRS` (MaxThreshold 10 < MinThreshold 29,
block size 1024) `GetMetainfo` fails with a configuration error — the
invalid-scheme error from the redundancy construction, a configuration
error per the spec's §7 taxonomy — even though
`ErasureShareSize * MinThreshold mod BlockSize = 0`.  So the claimed
equivalence "fails with a configuration error iff the product is not
divisible by the block size" is false. -/
theorem c1_config_error_iff_counterexample :
    ¬ (Config.failsWithConfigError cfgInvalidRS = true ↔
      goMod (goMul64 cfgInvalidRS.RS.ErasureShareSize cfgInvalidRS.RS.MinThreshold)
        cfgInvalidRS.Enc.BlockSize ≠ 0) := by
  decide

/-- C1 (amended): for every configuration whose redundancy parameters are
valid (`0 < MinThreshold ≤ RepairThreshold ≤ SuccessThreshold ≤
MaxThreshold`, `0 < ErasureShareSize`) and whose block size is nonzero,
`GetMetainfo` fails — with the block-size configuration error, returning no
metainfo and no stream store — exactly when
`ErasureShareSize * MinThreshold mod BlockSize ≠ 0`; otherwise it succeeds.
The check sits inside `GetMetainfo`, i.e. during construction and before
the stream store is built, so before any segment is processed. -/
theorem c1_blockcheck (c : Config)
    (hk : 0 < c.RS.MinThreshold)
    (hkm : c.RS.MinThreshold ≤ c.RS.RepairThreshold)
    (hmo : c.RS.RepairThreshold ≤ c.RS.SuccessThreshold)
    (hon : c.RS.SuccessThreshold ≤ c.RS.MaxThreshold)
    (hss : 0 < c.RS.ErasureShareSize)
    (hb : c.Enc.BlockSize ≠ 0) :
    (c.GetMetainfo = .error .blockSizeMismatch ↔
      goMod (goMul64 c.RS.ErasureShareSize c.RS.MinThreshold) c.Enc.BlockSize ≠ 0) ∧
    (exceptIsOk c.GetMetainfo = true ↔
      goMod (goMul64 c.RS.ErasureShareSize c.RS.MinThreshold) c.Enc.BlockSize = 0) := by
  have hfec : NewFEC c.RS.MinThreshold c.RS.MaxThreshold =
      .ok { k := c.RS.MinThreshold, n := c.RS.MaxThreshold } := by
    unfold NewFEC
    rw [if_pos ⟨hk, by omega⟩]
  have hrs : NewRedundancyStrategy
      (NewRSScheme { k := c.RS.MinThreshold, n := c.RS.MaxThreshold } c.RS.ErasureShareSize)
      c.RS.RepairThreshold c.RS.SuccessThreshold =
      .ok { es := NewRSScheme { k := c.RS.MinThreshold, n := c.RS.MaxThreshold }
                c.RS.ErasureShareSize
          , repairThreshold := c.RS.RepairThreshold
          , optimalThreshold := c.RS.SuccessThreshold } := by
    unfold NewRedundancyStrategy
    rw [if_pos ⟨hkm, hmo, hon, hss⟩]
  unfold Config.GetMetainfo
  rw [hfec]
  simp only
  rw [hrs]
  simp only
  rw [if_neg hb]
  by_cases hd : goMod (goMul64 c.RS.ErasureShareSize c.RS.MinThreshold) c.Enc.BlockSize = 0
  · rw [if_neg (by simp [hd])]
    simp [exceptIsOk, hd]
  · rw [if_pos hd]
    simp [exceptIsOk, hd]

/-- C1 witness: the amended theorem instantiated at `cfgBlockMismatch`
(valid redundancy parameters, block size 1000, 29696 mod 1000 = 696 ≠ 0). -/
theorem c1_blockcheck_witness :
    (0 < cfgBlockMismatch.RS.MinThreshold ∧
      cfgBlockMismatch.RS.MinThreshold ≤ cfgBlockMismatch.RS.RepairThreshold ∧
      cfgBlockMismatch.RS.RepairThreshold ≤ cfgBlockMismatch.RS.SuccessThreshold ∧
      cfgBlockMismatch.RS.SuccessThreshold ≤ cfgBlockMismatch.RS.MaxThreshold ∧
      0 < cfgBlockMismatch.RS.ErasureShareSize ∧
      cfgBlockMismatch.Enc.BlockSize ≠ 0) ∧
    ((cfgBlockMismatch.GetMetainfo = .error .blockSizeMismatch ↔
      goMod (goMul64 cfgBlockMismatch.RS.ErasureShareSize cfgBlockMismatch.RS.MinThreshold)
        cfgBlockMismatch.Enc.BlockSize ≠ 0) ∧
    (exceptIsOk cfgBlockMismatch.GetMetainfo = true ↔
      goMod (goMul64 cfgBlockMismatch.RS.ErasureShareSize cfgBlockMismatch.RS.MinThreshold)
        cfgBlockMismatch.Enc.BlockSize = 0)) :=
  ⟨by decide,
    c1_blockcheck cfgBlockMismatch (by decide) (by decide) (by decide) (by decide)
      (by decide) (by decide)⟩

/-- C2 counterexample: under the default configuration `GetMetainfo`
returns no error at all — in particular it does not fail with the
block-size configuration error — refuting the claim that the defaults must
fail. -/
theorem c2_default_fails_counterexample :
    exceptError (Config.GetMetainfo defaultConfig) = none := by
  decide

/-- C2 (amended): with the default values ErasureShareSize = 1024,
MinThreshold = 29 and BlockSize = 1024, the product is 29696 = 29 * 1024,
which IS divisible by 1024 (29696 mod 1024 = 0, not 512), so the
divisibility check passes and construction succeeds. -/
theorem c2_default_divisible :
    goMul64 defaultConfig.RS.ErasureShareSize defaultConfig.RS.MinThreshold = 29696 ∧
    goMod 29696 defaultConfig.Enc.BlockSize = 0 ∧
    exceptIsOk (Config.GetMetainfo defaultConfig) = true := by
  decide

/-- C4 counterexample: with `MinThreshold = 0` (violating `0 < k`),
`GetRedundancyScheme` — a total function that performs no validation —
still produces a scheme record, one that violates the spec's
`0 < k ≤ m ≤ o ≤ n` invariant, refuting "no scheme violating these bounds
is ever produced". -/
theorem c4_unvalidated_scheme_counterexample :
    Config.GetRedundancyScheme cfgZeroMin =
      { Algorithm := .reedSolomon, RequiredShares := 0, RepairShares := 35
      , OptimalShares := 80, TotalShares := 95 } ∧
    schemeBoundsOK (Config.GetRedundancyScheme cfgZeroMin) = false := by
  decide

/-- C4 (amended): the redundancy-strategy construction used by
`GetMetainfo` (NewFEC + NewRedundancyStrategy, modelled from the spec)
succeeds exactly when `0 < k ≤ m ≤ o ≤ n` and `ErasureShareSize > 0`, and
fails with InvalidScheme otherwise; `GetRedundancyScheme`, by contrast,
validates nothing and simply converts the configured values. -/
theorem c4_redundancy_construction_valid (c : Config) :
    c.redundancyConstruction =
      (if 0 < c.RS.MinThreshold ∧ c.RS.MinThreshold ≤ c.RS.RepairThreshold ∧
          c.RS.RepairThreshold ≤ c.RS.SuccessThreshold ∧
          c.RS.SuccessThreshold ≤ c.RS.MaxThreshold ∧ 0 < c.RS.ErasureShareSize then
        .ok { es := { fc := { k := c.RS.MinThreshold, n := c.RS.MaxThreshold }
                    , ErasureShareSize := c.RS.ErasureShareSize }
            , repairThreshold := c.RS.RepairThreshold
            , optimalThreshold := c.RS.SuccessThreshold }
      else .error .invalidScheme) := by
  unfold Config.redundancyConstruction NewFEC NewRedundancyStrategy NewRSScheme
  by_cases h1 : 0 < c.RS.MinThreshold ∧ c.RS.MinThreshold ≤ c.RS.MaxThreshold
  · rw [if_pos h1]
    simp only
    by_cases h2 : c.RS.MinThreshold ≤ c.RS.RepairThreshold ∧
        c.RS.RepairThreshold ≤ c.RS.SuccessThreshold ∧
        c.RS.SuccessThreshold ≤ c.RS.MaxThreshold ∧ 0 < c.RS.ErasureShareSize
    · rw [if_pos h2, if_pos (by omega)]
    · rw [if_neg h2, if_neg (by omega)]
  · rw [if_neg h1, if_neg (by omega)]

/-- C5 counterexample: with `MinThreshold = 32768`, Go's `int16`
conversion wraps and `GetRedundancyScheme` returns
`RequiredShares = -32768`, not the configured value — the pass-through is
not exact. -/
theorem c5_passthrough_counterexample :
    (Config.GetRedundancyScheme cfgBigMin).RequiredShares ≠ cfgBigMin.RS.MinThreshold ∧
    (Config.GetRedundancyScheme cfgBigMin).RequiredShares = -32768 := by
  decide

/-- C5 (amended): `GetRedundancyScheme` applies Go's lossy `int16`
conversions (and `GetEncryptionScheme` an `int32` conversion); whenever the
four thresholds each fit in `int16` and the block size fits in `int32` —
as all the default values do — the result is the exact pass-through:
Algorithm = ReedSolomon, RequiredShares = MinThreshold,
RepairShares = RepairThreshold, OptimalShares = SuccessThreshold,
TotalShares = MaxThreshold, Cipher = DataType, BlockSize = BlockSize. -/
theorem c5_passthrough (c : Config)
    (hk : -32768 ≤ c.RS.MinThreshold ∧ c.RS.MinThreshold < 32768)
    (hm : -32768 ≤ c.RS.RepairThreshold ∧ c.RS.RepairThreshold < 32768)
    (ho : -32768 ≤ c.RS.SuccessThreshold ∧ c.RS.SuccessThreshold < 32768)
    (hn : -32768 ≤ c.RS.MaxThreshold ∧ c.RS.MaxThreshold < 32768)
    (hb : -2147483648 ≤ c.Enc.BlockSize ∧ c.Enc.BlockSize < 2147483648) :
    c.GetRedundancyScheme =
      { Algorithm := .reedSolomon
      , RequiredShares := c.RS.MinThreshold
      , RepairShares := c.RS.RepairThreshold
      , OptimalShares := c.RS.SuccessThreshold
      , TotalShares := c.RS.MaxThreshold } ∧
    c.GetEncryptionScheme = { Cipher := c.Enc.DataType, BlockSize := c.Enc.BlockSize } := by
  unfold Config.GetRedundancyScheme Config.GetEncryptionScheme
  rw [wrapSigned16_fix _ hk.1 hk.2, wrapSigned16_fix _ hm.1 hm.2,
    wrapSigned16_fix _ ho.1 ho.2, wrapSigned16_fix _ hn.1 hn.2,
    wrapSigned32_fix _ hb.1 hb.2]
  exact ⟨rfl, rfl⟩

/-- C5 witness: the pass-through theorem at the default configuration,
whose values all fit. -/
theorem c5_passthrough_witness :
    ((-32768 ≤ defaultConfig.RS.MinThreshold ∧ defaultConfig.RS.MinThreshold < 32768) ∧
      (-32768 ≤ defaultConfig.RS.RepairThreshold ∧ defaultConfig.RS.RepairThreshold < 32768) ∧
      (-32768 ≤ defaultConfig.RS.SuccessThreshold ∧ defaultConfig.RS.SuccessThreshold < 32768) ∧
      (-32768 ≤ defaultConfig.RS.MaxThreshold ∧ defaultConfig.RS.MaxThreshold < 32768) ∧
      (-2147483648 ≤ defaultConfig.Enc.BlockSize ∧ defaultConfig.Enc.BlockSize < 2147483648)) ∧
    (defaultConfig.GetRedundancyScheme =
      { Algorithm := .reedSolomon
      , RequiredShares := defaultConfig.RS.MinThreshold
      , RepairShares := defaultConfig.RS.RepairThreshold
      , OptimalShares := defaultConfig.RS.SuccessThreshold
      , TotalShares := defaultConfig.RS.MaxThreshold } ∧
    defaultConfig.GetEncryptionScheme =
      { Cipher := defaultConfig.Enc.DataType, BlockSize := defaultConfig.Enc.BlockSize }) :=
  ⟨by decide,
    c5_passthrough defaultConfig (by decide) (by decide) (by decide) (by decide) (by decide)⟩

/-- C6: the default configuration matches the spec's end-to-end example:
MinThreshold (k) 29, MaxThreshold (n) 95, SegmentSize 64,000,000 bytes. -/
theorem c6_default_example_parameters :
    defaultConfig.RS.MinThreshold = 29 ∧ defaultConfig.RS.MaxThreshold = 95 ∧
    defaultConfig.Client.SegmentSize = 64000000 :=
  ⟨rfl, rfl, rfl⟩

end miniogw

/-! ## Claims about the overlay configuration -/

namespace overlay

theorem ctxValue_cons (k2 k : CtxKey) (v : CtxVal) (rest : Context) :
    ctxValue ((k2, v) :: rest) k = if k2 = k then some v else ctxValue rest k := rfl

/-- C3: `Config.Run` selects the persistent backend solely by the scheme
prefix of `DatabaseURL` once the context preconditions hold: scheme "bolt"
opens BoltDB on the location (with the overlay bucket) and builds the cache
over the handle it returns; scheme "redis" opens Redis on the full URL and
builds the cache over that handle; any other scheme is a startup-time fatal
configuration error, with no backend opened, no cache constructed and no
server registered (the action trace is empty), so the failure is never
deferred to first use. -/
theorem c3_backend_selection (env : RunEnv) (ctx : Context) (c : Config)
    (kad : Kademlia) (hk : kademlia.LoadFromContext ctx = some kad)
    (sdb : MasterDB) (hm : ctxValue ctx .masterdbKey = some (.masterdb sdb)) :
    (∀ source db, SplitDBURL c.DatabaseURL = some ("bolt", source) →
      env.boltNew source OverlayBucket = .ok db →
      ∃ r : RunOk, Config.Run env ctx c =
        ([.openBolt source OverlayBucket, .newCache, .registerServer], .ok r) ∧
        r.cache.db = db) ∧
    (∀ source db, SplitDBURL c.DatabaseURL = some ("redis", source) →
      env.redisNewClientFrom c.DatabaseURL = .ok db →
      ∃ r : RunOk, Config.Run env ctx c =
        ([.openRedis c.DatabaseURL, .newCache, .registerServer], .ok r) ∧
        r.cache.db = db) ∧
    (∀ driver source, SplitDBURL c.DatabaseURL = some (driver, source) →
      driver ≠ "bolt" → driver ≠ "redis" →
      Config.Run env ctx c = ([], .error (.schemeNotSupported driver))) := by
  refine ⟨?_, ?_, ?_⟩
  · intro source db hs hb
    unfold Config.Run
    rw [hk]
    simp only
    rw [hm]
    simp only
    rw [hs]
    simp only
    rw [if_pos trivial, hb]
    exact ⟨_, rfl, rfl⟩
  · intro source db hs hb
    unfold Config.Run
    rw [hk]
    simp only
    rw [hm]
    simp only
    rw [hs]
    simp only
    rw [if_pos trivial, hb]
    exact ⟨_, rfl, rfl⟩
  · intro driver source hs hb hr
    unfold Config.Run
    rw [hk]
    simp only
    rw [hm]
    simp only
    rw [hs]
    simp only
    rw [if_neg hb, if_neg hr]

/-- C3 witness: the theorem at a concrete environment and context, for a
bolt URL, a redis URL and an unsupported sqlite URL. -/
theorem c3_backend_selection_witness :
    (∃ r : RunOk, Config.Run env0 ctxReady cfgBoltURL =
      ([.openBolt "path" OverlayBucket, .newCache, .registerServer], .ok r) ∧
      r.cache.db = .bolt "path" OverlayBucket) ∧
    (∃ r : RunOk, Config.Run env0 ctxReady cfgRedisURL =
      ([.openRedis cfgRedisURL.DatabaseURL, .newCache, .registerServer], .ok r) ∧
      r.cache.db = .redis cfgRedisURL.DatabaseURL) ∧
    Config.Run env0 ctxReady cfgSqliteURL = ([], .error (.schemeNotSupported "sqlite")) :=
  ⟨(c3_backend_selection env0 ctxReady cfgBoltURL kad0 rfl mdb0 rfl).1
      "path" (.bolt "path" OverlayBucket) (by decide) rfl,
    (c3_backend_selection env0 ctxReady cfgRedisURL kad0 rfl mdb0 rfl).2.1
      "127.0.0.1:6379" (.redis cfgRedisURL.DatabaseURL) (by decide) rfl,
    (c3_backend_selection env0 ctxReady cfgSqliteURL kad0 rfl mdb0 rfl).2.2
      "sqlite" "path" (by decide) (by decide) (by decide)⟩

/-- C7: the overlay cache refresh interval is a configuration value
(`Config.RefreshInterval`) whose default is one second. -/
theorem c7_refresh_interval_default :
    defaultConfig.RefreshInterval = timeSecond ∧ timeSecond = 1000000000 :=
  ⟨rfl, rfl⟩

/-- C9: `LoadFromContext` / `LoadServerFromContext` round-trip with the
context registration of `Config.Run`: on the context a successful run hands
to `server.Run`, they return exactly the cache and the server the run
stored; on any context with nothing stored under the overlay keys, they
return nil (`none`) rather than failing. -/
theorem c9_context_roundtrip :
    (∀ (env : RunEnv) (ctx : Context) (c : Config) (tr : List Action) (r : RunOk),
      Config.Run env ctx c = (tr, .ok r) →
      LoadFromContext r.ctx2 = some r.cache ∧ LoadServerFromContext r.ctx2 = some r.srv) ∧
    (∀ ctx : Context, ctxValue ctx .ctxKeyOverlay = none → LoadFromContext ctx = none) ∧
    (∀ ctx : Context, ctxValue ctx .ctxKeyOverlayServer = none →
      LoadServerFromContext ctx = none) := by
  refine ⟨?_, ?_, ?_⟩
  · intro env ctx c tr r h
    unfold Config.Run at h
    cases hkad : kademlia.LoadFromContext ctx with
    | none =>
      rw [hkad] at h
      exact absurd h (by simp)
    | some kad =>
      rw [hkad] at h
      simp only [] at h
      rcases hmv : ctxValue ctx CtxKey.masterdbKey with _ | v
      · rw [hmv] at h
        exact absurd h (by simp)
      · rcases v with cc | ss | kk | sdb | nn
        · rw [hmv] at h
          exact absurd h (by simp)
        · rw [hmv] at h
          exact absurd h (by simp)
        · rw [hmv] at h
          exact absurd h (by simp)
        · rw [hmv] at h
          simp only [] at h
          cases hsp : SplitDBURL c.DatabaseURL with
          | none =>
            rw [hsp] at h
            exact absurd h (by simp)
          | some p =>
            obtain ⟨driver, source⟩ := p
            rw [hsp] at h
            simp only [] at h
            by_cases hd1 : driver = "bolt"
            · rw [if_pos hd1] at h
              cases hb : env.boltNew source OverlayBucket with
              | error e =>
                rw [hb] at h
                exact absurd h (by simp)
              | ok db =>
                rw [hb] at h
                rw [Prod.mk.injEq, Except.ok.injEq] at h
                obtain ⟨htr, hok⟩ := h
                subst hok
                simp [LoadFromContext, LoadServerFromContext, withValue, ctxValue_cons]
            · rw [if_neg hd1] at h
              by_cases hd2 : driver = "redis"
              · rw [if_pos hd2] at h
                cases hb : env.redisNewClientFrom c.DatabaseURL with
                | error e =>
                  rw [hb] at h
                  exact absurd h (by simp)
                | ok db =>
                  rw [hb] at h
                  rw [Prod.mk.injEq, Except.ok.injEq] at h
                  obtain ⟨htr, hok⟩ := h
                  subst hok
                  simp [LoadFromContext, LoadServerFromContext, withValue, ctxValue_cons]
              · rw [if_neg hd2] at h
                exact absurd h (by simp)
        · rw [hmv] at h
          exact absurd h (by simp)
  · intro ctx hnone
    unfold LoadFromContext
    rw [hnone]
  · intro ctx hnone
    unfold LoadServerFromContext
    rw [hnone]

/-- C9 witness: the round trip at the concrete successful bolt run, and
the nil results on a context without the overlay keys. -/
theorem c9_context_roundtrip_witness :
    (LoadFromContext runBoltOk.ctx2 = some runBoltOk.cache ∧
      LoadServerFromContext runBoltOk.ctx2 = some runBoltOk.srv) ∧
    (LoadFromContext ctxKadOnly = none ∧ LoadServerFromContext ctxKadOnly = none) :=
  ⟨c9_context_roundtrip.1 env0 ctxReady cfgBoltURL
      [.openBolt "path" OverlayBucket, .newCache, .registerServer] runBoltOk (by rfl),
    c9_context_roundtrip.2.1 ctxKadOnly (by rfl),
    c9_context_roundtrip.2.2 ctxKadOnly (by rfl)⟩

/-- C10: `Config.Run` returns an error with an empty action trace — so
before opening any storage backend, constructing a cache or registering a
server — whenever the context lacks a started Kademlia responsibility, or
has one but lacks a masterdb value providing a StatDB; this holds for
every configuration, i.e. the precondition checks come ahead of backend
selection. -/
theorem c10_preconditions_checked_first (env : RunEnv) (ctx : Context) (c : Config) :
    (kademlia.LoadFromContext ctx = none →
      Config.Run env ctx c = ([], .error .programmerErrorKademliaUnstarted)) ∧
    (∀ kad, kademlia.LoadFromContext ctx = some kad →
      (∀ m : MasterDB, ctxValue ctx .masterdbKey ≠ some (.masterdb m)) →
      Config.Run env ctx c = ([], .error .unableToGetMasterDB)) := by
  constructor
  · intro h
    unfold Config.Run
    rw [h]
  · intro kad hk hm
    unfold Config.Run
    rw [hk]
    rcases hv : ctxValue ctx CtxKey.masterdbKey with _ | v
    · rfl
    · cases v with
      | overlayCache cc => rfl
      | overlayServer s => rfl
      | kademlia k => rfl
      | masterdb m => exact absurd hv (hm m)
      | otherVal n => rfl

/-- C10 witness: the theorem at the empty context (no Kademlia) and at a
context with a Kademlia but no masterdb value. -/
theorem c10_preconditions_witness :
    Config.Run env0 [] cfgBoltURL = ([], .error .programmerErrorKademliaUnstarted) ∧
    Config.Run env0 ctxKadOnly cfgBoltURL = ([], .error .unableToGetMasterDB) :=
  ⟨(c10_preconditions_checked_first env0 [] cfgBoltURL).1 rfl,
    (c10_preconditions_checked_first env0 ctxKadOnly cfgBoltURL).2 kad0 rfl
      (fun m h => Option.noConfusion h)⟩

theorem collectIDs_eq (parse : String → Except ε σ) (l : List String) :
    collectIDs parse l =
      (l.filterMap (fun s => exceptError (parse s)),
        l.filterMap (fun s => exceptOk (parse s))) := by
  induction l with
  | nil => rfl
  | cons s rest ih =>
    unfold collectIDs
    rw [ih]
    cases hp : parse s <;> simp [exceptError, exceptOk, hp, List.filterMap_cons]

theorem forall2_parse_ok (parse : String → Except ε σ) (l : List String)
    (h : ∀ s ∈ l, exceptIsOk (parse s) = true) :
    List.Forall₂ (fun s a => parse s = .ok a) l
      (l.filterMap (fun s => exceptOk (parse s))) := by
  induction l with
  | nil => exact List.Forall₂.nil
  | cons s rest ih =>
    have hs := h s (List.mem_cons_self s rest)
    cases hp : parse s with
    | error e =>
      rw [hp] at hs
      simp [exceptIsOk] at hs
    | ok a =>
      rw [List.filterMap_cons]
      simp only [hp, exceptOk]
      exact List.Forall₂.cons hp (ih (fun x hx => h x (List.mem_cons_of_mem s hx)))

/-- C8: `ParseIDs` is all-or-nothing, for every node-ID parser.  If every
delimiter-separated substring of `NodeIDsString` parses, it returns
exactly one ID per substring in input order (`Forall₂` pairs the
substrings with the returned IDs) with no error; if at least one substring
fails, it returns the nil ID list with a non-nil error combining all the
parse failures — never a partial list of the IDs that did parse. -/
theorem c8_parseids_all_or_nothing (ε σ : Type) (parse : String → Except ε σ)
    (c : LookupConfig) :
    ((∀ s ∈ goSplit c.NodeIDsString c.Delimiter, exceptIsOk (parse s) = true) →
      ∃ ids : List σ, LookupConfig.ParseIDs parse c = .ok ids ∧
        List.Forall₂ (fun s a => parse s = .ok a)
          (goSplit c.NodeIDsString c.Delimiter) ids) ∧
    ((∃ s ∈ goSplit c.NodeIDsString c.Delimiter, exceptIsOk (parse s) = false) →
      ∃ es : List ε, LookupConfig.ParseIDs parse c = .error es ∧ es ≠ [] ∧
        es = (goSplit c.NodeIDsString c.Delimiter).filterMap
          (fun s => exceptError (parse s))) := by
  constructor
  · intro hall
    refine ⟨(goSplit c.NodeIDsString c.Delimiter).filterMap (fun s => exceptOk (parse s)),
      ?_, forall2_parse_ok parse _ hall⟩
    unfold LookupConfig.ParseIDs
    rw [collectIDs_eq]
    have herr : (goSplit c.NodeIDsString c.Delimiter).filterMap
        (fun s => exceptError (parse s)) = [] := by
      rw [List.filterMap_eq_nil_iff]
      intro s hs
      have hsok := hall s hs
      cases hp : parse s with
      | error e =>
        rw [hp] at hsok
        simp [exceptIsOk] at hsok
      | ok a => simp [exceptError]
    rw [herr]
    rfl
  · rintro ⟨s, hs, hfail⟩
    have hse : ∃ e, parse s = .error e := by
      cases hp : parse s with
      | error e => exact ⟨e, rfl⟩
      | ok a =>
        rw [hp] at hfail
        simp [exceptIsOk] at hfail
    obtain ⟨e, he⟩ := hse
    have hmem : e ∈ (goSplit c.NodeIDsString c.Delimiter).filterMap
        (fun x => exceptError (parse x)) :=
      List.mem_filterMap.mpr ⟨s, hs, by simp [he, exceptError]⟩
    have hne := List.ne_nil_of_mem hmem
    obtain ⟨e0, es0, hl⟩ := List.exists_cons_of_ne_nil hne
    refine ⟨(goSplit c.NodeIDsString c.Delimiter).filterMap
      (fun x => exceptError (parse x)), ?_, hne, rfl⟩
    unfold LookupConfig.ParseIDs
    rw [collectIDs_eq]
    rw [hl]
    rfl

/-- C8 witness: the theorem instantiated with the concrete parser `parse0`
on a fully-parsing input and on an input with one failing substring. -/
theorem c8_parseids_witness :
    (∃ ids : List Nat, LookupConfig.ParseIDs parse0 cfgIDsOk = .ok ids ∧
      List.Forall₂ (fun s a => parse0 s = .ok a)
        (goSplit cfgIDsOk.NodeIDsString cfgIDsOk.Delimiter) ids) ∧
    (∃ es : List Unit, LookupConfig.ParseIDs parse0 cfgIDsBad = .error es ∧ es ≠ [] ∧
      es = (goSplit cfgIDsBad.NodeIDsString cfgIDsBad.Delimiter).filterMap
        (fun s => exceptError (parse0 s))) :=
  ⟨(c8_parseids_all_or_nothing Unit Nat parse0 cfgIDsOk).1 (by decide),
    (c8_parseids_all_or_nothing Unit Nat parse0 cfgIDsBad).2 ⟨"b", by decide, by decide⟩⟩

end overlay

end Storj
